import Mathlib

/-!
Shallow embedding of the vessel-command protocol codec
(src/communication.py, src/controller.py, src/receiver.py).

Modelling conventions:
* Python byte strings are `List Nat` with entries < 256 (predicate `ByteBuf`).
* Python floats are modelled as rationals; `int(x)` is `pyInt` (truncation
  toward zero), matching CPython's behaviour on our inputs.
* `struct.pack` validates every argument against its format's range and
  raises `struct.error` otherwise; we model one pack call as a range check
  followed by emission of the big-endian bytes.  Arguments that are
  constants, table values, or pre-masked (`& 0xFF`, `& 0xFFFF`) are always
  in range and their (vacuous) checks are omitted.
* `struct.unpack(fmt, b)` requires `len(b)` to equal the format's size,
  raising `struct.error` otherwise.
* Exceptions escaping a `try` block in the parsers are returned as the
  generic "解析数据包时出错" error; we model the outcome as `Except ParseError`.
-/

/-- Python `int(q)` for a rational: truncation toward zero. -/
def pyInt (q : ℚ) : ℤ :=
  if q < 0 then -Int.floor (-q) else Int.floor q

/-- Big-endian bytes of an unsigned 16-bit value (format `H`). -/
def u16bytesN (v : Nat) : List Nat := [v / 256 % 256, v % 256]

/-- Big-endian 16-bit read at offset `i` (decoder side, format `H`). -/
def u16at (data : List Nat) (i : Nat) : Nat :=
  data.getD i 0 * 256 + data.getD (i + 1) 0

/-- Big-endian 32-bit read at offset `i` (decoder side, format `I`). -/
def u32at (data : List Nat) (i : Nat) : Nat :=
  ((data.getD i 0 * 256 + data.getD (i + 1) 0) * 256 + data.getD (i + 2) 0) * 256
    + data.getD (i + 3) 0

/-- Signed big-endian 16-bit read at offset `i` (decoder side, format `h`). -/
def i16at (data : List Nat) (i : Nat) : ℤ :=
  if u16at data i < 32768 then (u16at data i : ℤ) else (u16at data i : ℤ) - 65536

/-- Signed big-endian 32-bit read at offset `i` (decoder side, format `i`). -/
def i32at (data : List Nat) (i : Nat) : ℤ :=
  if u32at data i < 2147483648 then (u32at data i : ℤ)
  else (u32at data i : ℤ) - 4294967296

/-- A Python `bytes` buffer: every entry is a byte. -/
def ByteBuf (data : List Nat) : Prop := ∀ b ∈ data, b < 256

instance (data : List Nat) : Decidable (ByteBuf data) := by
  unfold ByteBuf; infer_instance

/-- receiver.py `convert_from_geo_format`: protocol geo value to degrees. -/
def convert_from_geo_format (geo_value : ℤ) : ℚ :=
  (geo_value : ℚ) * 180 / 2147483648

/-- receiver.py `convert_angular_value`: 2^15-scale angular value to degrees. -/
def convert_angular_value (value : ℤ) : ℚ :=
  (value : ℚ) * 180 / 32768

/-- controller.py `convert_to_geo_format`: degrees to protocol geo value,
`int(degree / 180.0 * 2**31)`. -/
def convert_to_geo_format (degree : ℚ) : ℤ :=
  pyInt (degree / 180 * 2147483648)

/-- Errors raised while building command packets: `InvalidWaypointCount` is
controller.py's `ValueError("路径点数量必须在2-255之间")`; `packRange` is
`struct.error` for an argument outside its format's range. -/
inductive EncodeError where
  | invalidWaypointCount
  | packRange
deriving DecidableEq, Repr

/-- Errors returned by the receiver.py parsers, matching the distinct error
messages of the returned `{"error": ...}` dictionaries: buffer too short,
unit-type mismatch, secondary-type mismatch, and the generic
"解析数据包时出错" handler for exceptions raised inside the `try` block. -/
inductive ParseError where
  | truncated
  | badUnitType
  | badSubtype
  | generic
deriving DecidableEq, Repr

/-- communication.py / controller.py `VESSEL_CODES.get(vessel_id, 0x5001)`:
the static vessel table `{1: 0x5001, ..., 5: 0x5005}` with fallback to the
first entry's code. -/
def vessel_code_get (vessel_id : ℤ) : Nat :=
  if vessel_id = 1 then 0x5001
  else if vessel_id = 2 then 0x5002
  else if vessel_id = 3 then 0x5003
  else if vessel_id = 4 then 0x5004
  else if vessel_id = 5 then 0x5005
  else 0x5001

/-- communication.py `create_command_packet(seq_num, vessel_id, speed,
direction)`, with the call to `get_timestamp()` made an explicit argument.
Field values: `unit_seq = seq_num & 0xFF`, `unit_id = 0x01`,
`unit_length = 0x001C`, `sender = 0x0701`, `secondary = 0x0340`,
`receiver = VESSEL_CODES.get(vessel_id, 0x5001)`, `data_source = 0x01`,
`param_id = 0x07`, `speed_value = int(speed*10)`,
`direction_value = int(direction*10) & 0xFFFF`, `command_time = 0`,
`command_seq = 0`, `platform = receiver`.  The single
`struct.pack('>BBHIHHHBBHHHIH', ...)` call checks each argument against its
format's range (the contingent ones being the timestamp for `I` and the
unscaled `speed_value` for the unsigned `H`) and emits the big-endian
bytes.  Note the format packs `command_time` with `H` and `command_seq`
with `I` (both zero), so the total is still 28 bytes. -/
def create_command_packet (seq_num vessel_id : ℤ) (speed direction : ℚ)
    (timestamp : ℤ) : Except EncodeError (List Nat) :=
  let unit_seq : Nat := (seq_num.emod 256).toNat
  let receiver_code : Nat := vessel_code_get vessel_id
  let speed_value : ℤ := pyInt (speed * 10)
  let direction_value : Nat := ((pyInt (direction * 10)).emod 65536).toNat
  if 0 ≤ timestamp ∧ timestamp < 4294967296 ∧
     0 ≤ speed_value ∧ speed_value < 65536 then
    .ok [unit_seq, 0x01,
         0x00, 0x1C,
         timestamp.toNat / 16777216 % 256, timestamp.toNat / 65536 % 256,
         timestamp.toNat / 256 % 256, timestamp.toNat % 256,
         0x07, 0x01,
         0x03, 0x40,
         receiver_code / 256 % 256, receiver_code % 256,
         0x01, 0x07,
         speed_value.toNat / 256 % 256, speed_value.toNat % 256,
         direction_value / 256 % 256, direction_value % 256,
         0x00, 0x00,
         0x00, 0x00, 0x00, 0x00,
         receiver_code / 256 % 256, receiver_code % 256]
  else .error .packRange

/-- controller.py `create_speed_packet` duplicates communication.py's
`create_command_packet` verbatim. -/
def create_speed_packet (seq_num vessel_id : ℤ) (speed direction : ℚ)
    (timestamp : ℤ) : Except EncodeError (List Nat) :=
  create_command_packet seq_num vessel_id speed direction timestamp

/-- The range conditions `struct.pack('>BiiHI', 0, lon_value, lat_value,
speed_value, 0)` imposes on one waypoint of controller.py
`create_route_packet`: the geo-converted longitude and latitude must fit
the signed 32-bit format `i` and `int(speed*10)` must fit the unsigned
16-bit format `H`. -/
def waypoint_in_range (w : ℚ × ℚ × ℚ) : Prop :=
  -2147483648 ≤ convert_to_geo_format w.1 ∧
  convert_to_geo_format w.1 < 2147483648 ∧
  -2147483648 ≤ convert_to_geo_format w.2.1 ∧
  convert_to_geo_format w.2.1 < 2147483648 ∧
  0 ≤ pyInt (w.2.2 * 10) ∧ pyInt (w.2.2 * 10) < 65536

instance (w : ℚ × ℚ × ℚ) : Decidable (waypoint_in_range w) := by
  unfold waypoint_in_range; infer_instance

/-- One iteration of controller.py `create_route_packet`'s waypoint loop:
`struct.pack('>BiiHI', waypoint_type, lon_value, lat_value, speed_value,
time_value)` with `waypoint_type = 0`, `time_value = 0`, producing the
15-byte record, or raising `struct.error` when a value is out of range. -/
def pack_waypoint (lon lat sp : ℚ) : Except EncodeError (List Nat) :=
  let lon_value := convert_to_geo_format lon
  let lat_value := convert_to_geo_format lat
  let speed_value := pyInt (sp * 10)
  let lv := (lon_value.emod 4294967296).toNat
  let av := (lat_value.emod 4294967296).toNat
  if waypoint_in_range (lon, lat, sp) then
    .ok [0x00,
         lv / 16777216 % 256, lv / 65536 % 256, lv / 256 % 256, lv % 256,
         av / 16777216 % 256, av / 65536 % 256, av / 256 % 256, av % 256,
         speed_value.toNat / 256 % 256, speed_value.toNat % 256,
         0x00, 0x00, 0x00, 0x00]
  else .error .packRange

/-- controller.py `create_route_packet`'s `for` loop over `waypoints`,
concatenating the per-waypoint records in order; the first `struct.error`
aborts packet construction. -/
def pack_waypoints : List (ℚ × ℚ × ℚ) → Except EncodeError (List Nat)
  | [] => .ok []
  | (lon, lat, sp) :: rest =>
    match pack_waypoint lon lat sp with
    | .error e => .error e
    | .ok wb =>
      match pack_waypoints rest with
      | .error e => .error e
      | .ok rb => .ok (wb ++ rb)

/-- The fixed header block of controller.py `create_route_packet`:
`struct.pack('>BBHIHHHBBHHHHHIHBHB', ...)` over the 19 header values.  The
format string misaligns with the field comments — `route_direction` (value
0) is packed by the `I` item and `route_start_time` (value 0) by the
following `H` — so the header is 36 bytes.  All header arguments other
than the timestamp are constants, masked, table values, or the already
validated waypoint count, hence always within their formats' ranges. -/
def route_header (seq_num : ℤ) (receiver_code unit_length ts n : Nat) :
    List Nat :=
  [(seq_num.emod 256).toNat, 0x01,
   unit_length / 256 % 256, unit_length % 256,
   ts / 16777216 % 256, ts / 65536 % 256, ts / 256 % 256, ts % 256,
   0x07, 0x01,
   0x03, 0x40,
   receiver_code / 256 % 256, receiver_code % 256,
   0x01, 0x01,
   0x00, 0x00,
   0x00, 0x00,
   0x00, 0x00,
   receiver_code / 256 % 256, receiver_code % 256,
   0x00, 0x00,
   0x00, 0x00, 0x00, 0x00,
   0x00, 0x00,
   0x01,
   0x00, 0x00,
   n]

/-- controller.py `create_route_packet(seq_num, vessel_id, waypoints)` with
the timestamp made explicit.  Checks `2 <= len(waypoints) <= 255` (raising
`ValueError` otherwise), sets `unit_length = 38 + 15*N`, packs the 36-byte
header, the 15-byte waypoint records, and the 2-byte `'>H'` trailer
(`replan_time = 0`).  The final defensive length comparison in the source
only prints a warning and returns the packet regardless, so it does not
affect the result. -/
def create_route_packet (seq_num vessel_id : ℤ) (waypoints : List (ℚ × ℚ × ℚ))
    (timestamp : ℤ) : Except EncodeError (List Nat) :=
  let waypoint_count := waypoints.length
  if waypoint_count < 2 ∨ 255 < waypoint_count then .error .invalidWaypointCount
  else
    let unit_length := 38 + 15 * waypoint_count
    let receiver_code := vessel_code_get vessel_id
    if 0 ≤ timestamp ∧ timestamp < 4294967296 then
      match pack_waypoints waypoints with
      | .error e => .error e
      | .ok body =>
        .ok (route_header seq_num receiver_code unit_length timestamp.toNat
               waypoint_count ++ body ++ u16bytesN 0)
    else .error .packRange

/-- The decoded platform-status record: the numeric content of the
dictionary returned by receiver.py `parse_vessel_status` (the dictionary
renders several fields as strings; we keep the underlying values). -/
structure StatusRecord where
  unit_seq : Nat
  unit_id : Nat
  unit_length : Nat
  timestamp : Nat
  sender_code : Nat
  secondary_id : Nat
  data_source : Nat
  longitude : ℚ
  latitude : ℚ
  altitude : ℤ
  speed : ℚ
  heading : ℚ
  course : ℚ
  simulation_flag : Nat
  ammo : Nat
  fuel : Nat
  gimbal_angle : ℚ
  body_angle : ℚ
deriving Repr

/-- Field extraction of `parse_vessel_status`'s success path: header via
`struct.unpack('>BBHIHHHBB', data[:16])` and body via
`struct.unpack('>iihhhhhBBhBBhh', data[16:])`, with the scalar conversions
applied (`convert_from_geo_format`, `speed/10`, `convert_angular_value`). -/
def statusRecordOf (data : List Nat) : StatusRecord :=
  { unit_seq := data.getD 0 0
    unit_id := data.getD 1 0
    unit_length := u16at data 2
    timestamp := u32at data 4
    sender_code := u16at data 8
    secondary_id := u16at data 10
    data_source := data.getD 14 0
    longitude := convert_from_geo_format (i32at data 16)
    latitude := convert_from_geo_format (i32at data 20)
    altitude := i16at data 24
    speed := (i16at data 26 : ℚ) / 10
    heading := convert_angular_value (i16at data 28)
    course := convert_angular_value (i16at data 30)
    simulation_flag := data.getD 35 0
    ammo := data.getD 38 0
    fuel := data.getD 39 0
    gimbal_angle := convert_angular_value (i16at data 36)
    body_angle := convert_angular_value (i16at data 40) }

/-- receiver.py `parse_vessel_status(data)`: rejects buffers shorter than
`PACKET_LENGTH = 44`; always succeeds in unpacking the 16-byte header;
rejects `unit_id != 0x03`; then `struct.unpack('>iihhhhhBBhBBhh',
data[16:])` requires exactly 28 remaining bytes, so a buffer longer than
44 raises `struct.error`, caught by the `except` clause as the generic
error.  The declared length field (`unit_length`, bytes 2-3) is read but
never validated. -/
def parse_vessel_status (data : List Nat) : Except ParseError StatusRecord :=
  if data.length < 44 then .error .truncated
  else if data.getD 1 0 ≠ 3 then .error .badUnitType
  else if data.length ≠ 44 then .error .generic
  else .ok (statusRecordOf data)

/-- One decoded surface-contact record (never actually produced by the
source: see `parse_target_record`). -/
structure TargetInfo where
  target_id : Nat
  longitude : ℚ
  latitude : ℚ
  bearing : ℚ
  distance : ℤ
  speed : ℚ
  heading : ℚ
  target_type : Nat
  feature : Nat
deriving Repr

/-- The decoded surface-contact batch: header metadata plus the ordered
target list of receiver.py `parse_surface_targets`. -/
structure ContactBatch where
  unit_seq : Nat
  unit_length : Nat
  timestamp : Nat
  sender_code : Nat
  secondary_id : Nat
  data_source : Nat
  target_count : Nat
  targets : List TargetInfo
deriving Repr

/-- `struct.unpack('>HiiIHHHI', slice)` from the target loop of
receiver.py `parse_surface_targets`.  The format describes 24 bytes and
8 fields; `struct.unpack` demands the buffer length equal the format size
and raises `struct.error` (caught as the generic error) otherwise. -/
def unpack_target_fields (slice : List Nat) : Except ParseError (List ℤ) :=
  if slice.length = 24 then
    .ok [(u16at slice 0 : ℤ), i32at slice 2, i32at slice 6,
         (u32at slice 10 : ℤ), (u16at slice 14 : ℤ), (u16at slice 16 : ℤ),
         (u16at slice 18 : ℤ), (u32at slice 20 : ℤ)]
  else .error .generic

/-- One iteration of the target loop: the slice `data[offset:offset+26]`
with `offset = 17 + 26*i` is unpacked with the 24-byte format above, and
the resulting tuple is destructured into NINE variables (`target_id,
lon_raw, lat_raw, bearing, distance, speed, heading, target_type,
target_feature`); a tuple of any other arity raises `ValueError`, again
caught as the generic error.  Since the slice has 26 bytes and the format
8 fields, both mismatches make every iteration fail. -/
def parse_target_record (data : List Nat) (i : Nat) :
    Except ParseError TargetInfo :=
  match unpack_target_fields ((data.drop (17 + 26 * i)).take 26) with
  | .error e => .error e
  | .ok vals =>
    if vals.length = 9 then
      .ok { target_id := (vals.getD 0 0).toNat
            longitude := convert_from_geo_format (vals.getD 1 0)
            latitude := convert_from_geo_format (vals.getD 2 0)
            bearing := convert_angular_value (vals.getD 3 0)
            distance := vals.getD 4 0
            speed := (vals.getD 5 0 : ℚ) / 10
            heading := (vals.getD 6 0 : ℚ) / 10
            target_type := (vals.getD 7 0).toNat
            feature := (vals.getD 8 0).toNat }
    else .error .generic

/-- The `for i in range(target_count)` loop of `parse_surface_targets`,
collecting the decoded targets in receive order; the first exception
aborts the whole parse. -/
def parse_targets_loop (data : List Nat) (i : Nat) :
    Nat → Except ParseError (List TargetInfo)
  | 0 => .ok []
  | k + 1 =>
    match parse_target_record data i with
    | .error e => .error e
    | .ok t =>
      match parse_targets_loop data (i + 1) k with
      | .error e => .error e
      | .ok rest => .ok (t :: rest)

/-- The header metadata (`base_info`) of `parse_surface_targets`. -/
def contactBatchOf (data : List Nat) (targets : List TargetInfo) :
    ContactBatch :=
  { unit_seq := data.getD 0 0
    unit_length := u16at data 2
    timestamp := u32at data 4
    sender_code := u16at data 8
    secondary_id := u16at data 10
    data_source := data.getD 14 0
    target_count := data.getD 16 0
    targets := targets }

/-- receiver.py `parse_surface_targets(data)`: checks, in order,
`len(data) >= MIN_TARGET_PACKET_LENGTH = 17`; `unit_id == 0x03`;
`secondary_id == 0x0E20`; `len(data) >= 17 + 26*target_count` with
`target_count = data[16]`; then runs the target loop. -/
def parse_surface_targets (data : List Nat) : Except ParseError ContactBatch :=
  if data.length < 17 then .error .truncated
  else if data.getD 1 0 ≠ 3 then .error .badUnitType
  else if u16at data 10 ≠ 0x0E20 then .error .badSubtype
  else if data.length < 17 + 26 * data.getD 16 0 then .error .truncated
  else
    match parse_targets_loop data 0 (data.getD 16 0) with
    | .error e => .error e
    | .ok targets => .ok (contactBatchOf data targets)

/-- The spec's formula for the geo encoder, written from §4.1's words:
`encode_geo(degrees) = round(degrees / 180 * 2^31)` (comparison
definition for the refinement in claim C8; the source truncates instead). -/
def encode_geo_spec (degree : ℚ) : ℤ :=
  round (degree / 180 * 2147483648)

/-- Concrete 43-byte contact packet for claim C1: header with unit-type
0x03, secondary-type 0x0E20, target count 1, followed by one 26-byte
all-zero target record. -/
def c1buf : List Nat :=
  [0, 3, 0, 0, 0, 0, 0, 0, 0x50, 0x01, 0x0E, 0x20, 0, 0, 0, 0, 1] ++
    List.replicate 26 0

/-- Concrete 44-byte status packet for claim C3: unit-type 0x03 but the
declared body-length field (bytes 2-3) reads 0xABCD = 43981, disagreeing
with the actual 44-byte length. -/
def c3buf : List Nat := 9 :: 3 :: 0xAB :: 0xCD :: List.replicate 40 0

/-- Concrete 45-byte buffer for claim C4: a valid-looking status packet
with unit-type 0x03 followed by one extra trailing byte. -/
def c4buf : List Nat := 0 :: 3 :: List.replicate 43 0

/-- Concrete 44-byte status packet (unit-type 0x03) used to instantiate
claim C4's amended statement. -/
def c4okbuf : List Nat := 1 :: 3 :: List.replicate 42 0

/-- Concrete 17-byte contact packet for claim C6: unit-type 0x03,
secondary-type 0x0E20, target count 0 and no target records. -/
def c6buf : List Nat :=
  [2, 3, 0, 0, 0, 0, 0, 0, 0x50, 0x01, 0x0E, 0x20, 0, 0, 0, 0, 0]

/-- The 28-byte packet `create_command_packet(5, 3, 0.0, 0.0)` produces
with timestamp 0 (used to instantiate claim C9). -/
def c9buf : List Nat :=
  [5, 1, 0, 28, 0, 0, 0, 0, 7, 1, 3, 64, 80, 3, 1, 7, 0, 0, 0, 0, 0, 0, 0,
   0, 0, 0, 80, 3]

/-- Concrete 44-byte status packet for claim C10: unit-type 0x03 and
secondary-type 0x0E20 (the contact-batch constant, not the status
constant 0x0340). -/
def c10buf : List Nat :=
  [7, 3, 0, 44, 0, 0, 0, 0, 0x50, 0x01, 0x0E, 0x20] ++ List.replicate 32 0

/-- All-zero two-waypoint list used to instantiate claim C5's amended
statement. -/
def c5witWps : List (ℚ × ℚ × ℚ) := [(0, 0, 0), (0, 0, 0)]

/-!  Lemmas and claim theorems. -/

/-- Truncation toward zero of an integer value is that integer. -/
lemma pyInt_intCast (n : ℤ) : pyInt (n : ℚ) = n := by
  unfold pyInt
  split
  · rw [← Int.cast_neg, Int.floor_intCast]; ring
  · rw [Int.floor_intCast]

/-- Truncation toward zero moves a rational by strictly less than 1. -/
lemma pyInt_abs_sub_lt (q : ℚ) : |(pyInt q : ℚ) - q| < 1 := by
  unfold pyInt
  rw [abs_lt]
  split
  · have h1 := Int.floor_le (-q)
    have h2 := Int.sub_one_lt_floor (-q)
    push_cast
    constructor <;> linarith
  · have h1 := Int.floor_le q
    have h2 := Int.sub_one_lt_floor q
    constructor <;> linarith

/-- The source's geo conversion of 0 degrees. -/
lemma geo_zero : convert_to_geo_format 0 = 0 := by
  unfold convert_to_geo_format
  have h : (0 : ℚ) / 180 * 2147483648 = ((0 : ℤ) : ℚ) := by norm_num
  rw [h, pyInt_intCast]

/-- The source's geo conversion of 180 degrees is 2^31, one past the
largest signed 32-bit value. -/
lemma geo_180 : convert_to_geo_format 180 = 2147483648 := by
  unfold convert_to_geo_format
  have h : (180 : ℚ) / 180 * 2147483648 = ((2147483648 : ℤ) : ℚ) := by
    norm_num
  rw [h, pyInt_intCast]

/-- The source's geo conversion of 360 degrees is 2^32. -/
lemma geo_360 : convert_to_geo_format 360 = 4294967296 := by
  unfold convert_to_geo_format
  have h : (360 : ℚ) / 180 * 2147483648 = ((4294967296 : ℤ) : ℚ) := by
    norm_num
  rw [h, pyInt_intCast]

/-- `int(0 * 10)` is 0. -/
lemma pyInt_zero_mul : pyInt ((0 : ℚ) * 10) = 0 := by
  have h : ((0 : ℚ) * 10) = ((0 : ℤ) : ℚ) := by norm_num
  rw [h, pyInt_intCast]

/-- The all-zero waypoint satisfies every fixed-width range condition. -/
lemma waypoint_in_range_zero : waypoint_in_range (0, 0, 0) := by
  unfold waypoint_in_range
  rw [geo_zero, pyInt_zero_mul]
  norm_num

/-- The vessel table always yields a value below 2^16. -/
lemma vessel_code_get_lt (v : ℤ) : vessel_code_get v < 65536 := by
  unfold vessel_code_get
  repeat' split
  all_goals decide

/-- A 44-byte buffer with unit-type byte 0x03 decodes to the record of
`statusRecordOf`. -/
lemma parse_vessel_status_eq_ok (data : List Nat) (hlen : data.length = 44)
    (hid : data.getD 1 0 = 3) :
    parse_vessel_status data = .ok (statusRecordOf data) := by
  unfold parse_vessel_status
  rw [if_neg (by omega), if_neg (not_ne_iff.mpr hid), if_neg (by omega)]

/-- Claim C1 (code_bug evidence): a 43-byte contact packet satisfying every
stated precondition (length = 17 + 26*1, unit-type 0x03, secondary-type
0x0E20, count byte 1) is NOT decoded into a one-target batch: the target
loop's `struct.unpack('>HiiIHHHI', ...)` (24-byte format, 8 fields) applied
to the 26-byte record and destructured into 9 variables raises, so the
parser returns the generic decode error. -/
theorem C1_contact_record_unpack_fails :
    c1buf.length = 17 + 26 * 1 ∧ c1buf.getD 1 0 = 3 ∧
    u16at c1buf 10 = 0x0E20 ∧ c1buf.getD 16 0 = 1 ∧
    parse_surface_targets c1buf = .error .generic :=
  ⟨rfl, rfl, rfl, rfl, rfl⟩

/-- Claim C10: `parse_vessel_status` never inspects the secondary-type
field: every 44-byte buffer whose unit-type byte (index 1) equals 0x03
decodes to a status record, whatever bytes 10-11 hold. -/
theorem C10_status_ignores_secondary (data : List Nat) (_hb : ByteBuf data)
    (hlen : data.length = 44) (hid : data.getD 1 0 = 3) :
    ∃ r, parse_vessel_status data = .ok r :=
  ⟨statusRecordOf data, parse_vessel_status_eq_ok data hlen hid⟩

/-- Claim C10 witness: a concrete 44-byte buffer carrying the contact-batch
secondary-type 0x0E20 still decodes successfully. -/
theorem C10_witness :
    ByteBuf c10buf ∧ c10buf.length = 44 ∧ u16at c10buf 10 = 0x0E20 ∧
    ∃ r, parse_vessel_status c10buf = .ok r :=
  ⟨by decide, rfl, rfl, C10_status_ignores_secondary c10buf (by decide) rfl rfl⟩

/-- Claim C3 counterexample: a 44-byte status buffer whose declared
body-length field reads 0xABCD = 43981 (disagreeing with the actual length
44) is decoded into a status record, not rejected — refuting the claim that
the decoder checks the declared length against the actual length. -/
theorem C3_cex :
    c3buf.length = 44 ∧ u16at c3buf 2 = 43981 ∧
    ∃ r, parse_vessel_status c3buf = .ok r :=
  ⟨rfl, rfl, statusRecordOf c3buf, parse_vessel_status_eq_ok c3buf rfl rfl⟩

/-- Claim C3 (amended): `parse_vessel_status` never compares the declared
body-length field with anything; a buffer of actual length exactly 44 with
unit-type 0x03 decodes successfully even when the declared field disagrees
with 44, and the declared value is reported verbatim in the record. -/
theorem C3_declared_length_not_checked (data : List Nat) (_hb : ByteBuf data)
    (hlen : data.length = 44) (hid : data.getD 1 0 = 3)
    (_hdecl : u16at data 2 ≠ 44) :
    ∃ r, parse_vessel_status data = .ok r ∧ r.unit_length = u16at data 2 :=
  ⟨statusRecordOf data, parse_vessel_status_eq_ok data hlen hid, rfl⟩

/-- Claim C3 witness: the amended statement instantiated at the concrete
disagreeing buffer. -/
theorem C3_witness :
    ∃ r, parse_vessel_status c3buf = .ok r ∧ r.unit_length = u16at c3buf 2 :=
  C3_declared_length_not_checked c3buf (by decide) rfl rfl (by decide)

/-- Claim C4 counterexample: a 45-byte buffer with unit-type 0x03 — the
claim says every buffer of length >= 44 with unit-type 0x03 yields a fully
decoded status record, but the body unpack requires exactly 28 remaining
bytes, so the parser returns the generic decode error instead. -/
theorem C4_cex :
    c4buf.length = 45 ∧ c4buf.getD 1 0 = 3 ∧
    parse_vessel_status c4buf = .error .generic :=
  ⟨rfl, rfl, rfl⟩

/-- Claim C4 (amended): `parse_vessel_status` returns `TruncatedPacket`
exactly when the buffer is shorter than 44 bytes; for buffers of length at
least 44, `UnexpectedUnitType` when the unit-type byte differs from 0x03; a
fully decoded record when the length is exactly 44; and the generic decode
error (exact-size unpack failure) when the length exceeds 44 — in every
case all-or-nothing. -/
theorem C4_status_all_or_nothing (data : List Nat) (_hb : ByteBuf data) :
    (data.length < 44 → parse_vessel_status data = .error .truncated) ∧
    (44 ≤ data.length → data.getD 1 0 ≠ 3 →
      parse_vessel_status data = .error .badUnitType) ∧
    (data.length = 44 → data.getD 1 0 = 3 →
      ∃ r, parse_vessel_status data = .ok r) ∧
    (44 < data.length → data.getD 1 0 = 3 →
      parse_vessel_status data = .error .generic) := by
  refine ⟨?_, ?_, ?_, ?_⟩
  · intro h
    unfold parse_vessel_status
    rw [if_pos h]
  · intro hlen hid
    unfold parse_vessel_status
    rw [if_neg (by omega), if_pos hid]
  · intro hlen hid
    exact ⟨statusRecordOf data, parse_vessel_status_eq_ok data hlen hid⟩
  · intro hlen hid
    unfold parse_vessel_status
    rw [if_neg (by omega), if_neg (not_ne_iff.mpr hid), if_pos (by omega)]

/-- Claim C4 witness: the amended statement instantiated on a short buffer,
a wrong-unit-type buffer, and an exactly-44-byte success. -/
theorem C4_witness :
    parse_vessel_status [1, 2, 3] = .error .truncated ∧
    parse_vessel_status c4buf = .error .generic ∧
    ∃ r, parse_vessel_status c4okbuf = .ok r :=
  ⟨(C4_status_all_or_nothing [1, 2, 3] (by decide)).1 (by decide),
   (C4_status_all_or_nothing c4buf (by decide)).2.2.2 (by decide) rfl,
   (C4_status_all_or_nothing c4okbuf (by decide)).2.2.1 rfl rfl⟩

/-- Claim C6: `parse_surface_targets` checks its preconditions in order —
length at least 17 (`truncated` otherwise), unit-type 0x03, secondary-type
0x0E20 (`badSubtype` otherwise), then length at least `17 + 26*count` with
`count` read from byte 16 (`truncated` otherwise) — and a count of 0 with
exactly 17 bytes decodes to a batch with an empty target list. -/
theorem C6_contact_precondition_order (data : List Nat) (_hb : ByteBuf data) :
    (data.length < 17 → parse_surface_targets data = .error .truncated) ∧
    (17 ≤ data.length → data.getD 1 0 ≠ 3 →
      parse_surface_targets data = .error .badUnitType) ∧
    (17 ≤ data.length → data.getD 1 0 = 3 → u16at data 10 ≠ 0x0E20 →
      parse_surface_targets data = .error .badSubtype) ∧
    (17 ≤ data.length → data.getD 1 0 = 3 → u16at data 10 = 0x0E20 →
      data.length < 17 + 26 * data.getD 16 0 →
      parse_surface_targets data = .error .truncated) ∧
    (data.length = 17 → data.getD 1 0 = 3 → u16at data 10 = 0x0E20 →
      data.getD 16 0 = 0 →
      ∃ b, parse_surface_targets data = .ok b ∧ b.targets = []) := by
  refine ⟨?_, ?_, ?_, ?_, ?_⟩
  · intro h
    unfold parse_surface_targets
    rw [if_pos h]
  · intro hlen hid
    unfold parse_surface_targets
    rw [if_neg (by omega), if_pos hid]
  · intro hlen hid hsec
    unfold parse_surface_targets
    rw [if_neg (by omega), if_neg (not_ne_iff.mpr hid), if_pos hsec]
  · intro hlen hid hsec hcount
    unfold parse_surface_targets
    rw [if_neg (by omega), if_neg (not_ne_iff.mpr hid),
      if_neg (not_ne_iff.mpr hsec), if_pos hcount]
  · intro hlen hid hsec hcount
    refine ⟨contactBatchOf data [], ?_, rfl⟩
    unfold parse_surface_targets
    rw [if_neg (by omega), if_neg (not_ne_iff.mpr hid),
      if_neg (not_ne_iff.mpr hsec), hcount]
    rw [if_neg (by omega)]
    rfl

/-- Claim C6 witness: the empty-batch case on the concrete 17-byte packet
with count 0. -/
theorem C6_witness :
    ∃ b, parse_surface_targets c6buf = .ok b ∧ b.targets = [] :=
  (C6_contact_precondition_order c6buf (by decide)).2.2.2.2 rfl rfl rfl rfl

/-- Claim C2 (code_bug evidence): the source's own comment declares the
speed field "有符号16位短整型" (signed 16-bit) and the CLI invites negative
speeds ("负值表示反向"), but the format string packs `speed_value` with the
unsigned format `H`, so `struct.pack` raises `struct.error` for any
negative speed instead of wrapping it modulo 2^16: at speed -1 both
duplicate builders fail rather than emitting 65526 in the speed field. -/
theorem C2_negative_speed_raises :
    create_command_packet 1 1 (-1) 0 0 = .error .packRange ∧
    create_speed_packet 1 1 (-1) 0 0 = .error .packRange := by
  have h10 : pyInt ((-1 : ℚ) * 10) = -10 := by
    have h : ((-1 : ℚ) * 10) = ((-10 : ℤ) : ℚ) := by norm_num
    rw [h, pyInt_intCast]
  have hmain : create_command_packet 1 1 (-1) 0 0 = .error .packRange := by
    simp only [create_command_packet, h10]
    rw [if_neg (by decide)]
  exact ⟨hmain, hmain⟩

/-- Claim C8 counterexample: at 135/2^31 degrees the scaled value is 3/4,
which the spec's `round` sends to 1 but the source's `int()` truncates to
0 — so `encode_geo` does not return `round(degrees / 180 * 2^31)`. -/
theorem C8_cex :
    convert_to_geo_format (135 / 2147483648) = 0 ∧
    encode_geo_spec (135 / 2147483648) = 1 := by
  constructor
  · unfold convert_to_geo_format
    have h : (135 / 2147483648 : ℚ) / 180 * 2147483648 = 3 / 4 := by norm_num
    rw [h]
    unfold pyInt
    rw [if_neg (by norm_num)]
    rw [Int.floor_eq_zero_iff.mpr]
    constructor <;> norm_num
  · unfold encode_geo_spec
    have h : (135 / 2147483648 : ℚ) / 180 * 2147483648 = 3 / 4 := by norm_num
    rw [h, round_eq]
    norm_num

/-- Claim C8 (amended): the source's geo encoder truncates toward zero
(`int(degrees / 180 * 2^31)`, not `round`), and for every degrees in
[-180, 180) the decode of the encode stays within one fixed-point step
180/2^31 of the original. -/
theorem C8_geo_truncation_roundtrip (d : ℚ) (_h1 : -180 ≤ d) (_h2 : d < 180) :
    convert_to_geo_format d = pyInt (d / 180 * 2147483648) ∧
    |convert_from_geo_format (convert_to_geo_format d) - d| ≤
      180 / 2147483648 := by
  refine ⟨rfl, ?_⟩
  unfold convert_from_geo_format convert_to_geo_format
  have hd : d = d / 180 * 2147483648 * 180 / 2147483648 := by ring
  have key : (pyInt (d / 180 * 2147483648) : ℚ) * 180 / 2147483648 - d =
      ((pyInt (d / 180 * 2147483648) : ℚ) - d / 180 * 2147483648) *
        (180 / 2147483648) := by
    rw [hd]; ring
  rw [key, abs_mul]
  have h3 := pyInt_abs_sub_lt (d / 180 * 2147483648)
  have h4 : |(180 : ℚ) / 2147483648| = 180 / 2147483648 := by
    rw [abs_of_pos]; norm_num
  rw [h4]
  nlinarith [abs_nonneg ((pyInt (d / 180 * 2147483648) : ℚ) -
    d / 180 * 2147483648)]

/-- Claim C8 witness: the amended statement at 1 degree. -/
theorem C8_witness :
    convert_to_geo_format 1 = pyInt (1 / 180 * 2147483648) ∧
    |convert_from_geo_format (convert_to_geo_format 1) - 1| ≤
      180 / 2147483648 :=
  C8_geo_truncation_roundtrip 1 (by norm_num) (by norm_num)

/-- Claim C7 counterexample: a route whose second waypoint has longitude
360 (beyond the documented range) is not encoded with a wrapped value — the
scaled longitude 2^32 exceeds the signed 32-bit format and the pack raises,
so `create_route_packet` fails instead of succeeding as claimed. -/
theorem C7_cex :
    create_route_packet 1 2 [((360 : ℚ), 0, 0), ((0 : ℚ), 0, 0)] 0 =
      .error .packRange := by
  have hwp : pack_waypoint 360 0 0 = .error .packRange := by
    simp only [pack_waypoint]
    rw [if_neg]
    intro hr
    unfold waypoint_in_range at hr
    rw [geo_360] at hr
    rcases hr with ⟨-, hlt, -⟩
    omega
  have hwps : pack_waypoints [((360 : ℚ), 0, 0), ((0 : ℚ), 0, 0)] =
      .error .packRange := by
    unfold pack_waypoints
    rw [hwp]
  simp only [create_route_packet]
  rw [if_neg (by simp), if_pos (by omega), hwps]

/-- Claim C7 (amended): `create_route_packet` performs no explicit
longitude/latitude validation — the geo conversion itself is total and a
waypoint is encoded successfully exactly when its scaled values fit their
fixed-width formats (`int(lon/180*2^31)` and `int(lat/180*2^31)` within
signed 32 bits, `int(speed*10)` within unsigned 16 bits); outside those
ranges the pack raises a range error rather than wrapping. -/
theorem C7_waypoint_encode_iff (lon lat sp : ℚ) :
    (∃ wb, pack_waypoint lon lat sp = .ok wb) ↔
      waypoint_in_range (lon, lat, sp) := by
  simp only [pack_waypoint]
  by_cases h : waypoint_in_range (lon, lat, sp)
  · rw [if_pos h]
    exact ⟨fun _ => h, fun _ => ⟨_, rfl⟩⟩
  · rw [if_neg h]
    constructor
    · rintro ⟨wb, hwb⟩
      exact absurd hwb (by simp)
    · intro hr
      exact absurd hr h

/-- Claim C7 witness: the amended statement applied at the all-zero
waypoint. -/
theorem C7_witness : ∃ wb, pack_waypoint 0 0 0 = .ok wb :=
  (C7_waypoint_encode_iff 0 0 0).mpr waypoint_in_range_zero

/-- A waypoint within range packs to a 15-byte record. -/
lemma pack_waypoint_ok_length (lon lat sp : ℚ)
    (h : waypoint_in_range (lon, lat, sp)) :
    ∃ wb, pack_waypoint lon lat sp = .ok wb ∧ wb.length = 15 := by
  simp only [pack_waypoint]
  rw [if_pos h]
  exact ⟨_, rfl, rfl⟩

/-- A list of in-range waypoints packs to `15 * N` bytes. -/
lemma pack_waypoints_ok_length (waypoints : List (ℚ × ℚ × ℚ))
    (h : ∀ w ∈ waypoints, waypoint_in_range w) :
    ∃ body, pack_waypoints waypoints = .ok body ∧
      body.length = 15 * waypoints.length := by
  induction waypoints with
  | nil => exact ⟨[], rfl, rfl⟩
  | cons w rest ih =>
    obtain ⟨lon, lat, sp⟩ := w
    obtain ⟨wb, hwb, hwblen⟩ :=
      pack_waypoint_ok_length lon lat sp (h _ (List.mem_cons_self _ _))
    obtain ⟨rb, hrb, hrblen⟩ := ih (fun w hw => h w (List.mem_cons_of_mem _ hw))
    refine ⟨wb ++ rb, ?_, ?_⟩
    · unfold pack_waypoints
      rw [hwb, hrb]
    · rw [List.length_append, hwblen, hrblen, List.length_cons]
      ring

/-- Claim C5 counterexample: with N = 2 (inside [2, 255]) but a first
waypoint at longitude 180 the scaled value 2^31 overflows the signed
32-bit format, so `create_route_packet` raises a pack error — neither an
`InvalidWaypointCount` nor a 68-byte buffer, refuting the claim's "for
every waypoint list". -/
theorem C5_cex :
    create_route_packet 1 1 [((180 : ℚ), 0, 0), ((0 : ℚ), 0, 0)] 0 =
      .error .packRange := by
  have hwp : pack_waypoint 180 0 0 = .error .packRange := by
    simp only [pack_waypoint]
    rw [if_neg]
    intro hr
    unfold waypoint_in_range at hr
    rw [geo_180] at hr
    rcases hr with ⟨-, hlt, -⟩
    omega
  have hwps : pack_waypoints [((180 : ℚ), 0, 0), ((0 : ℚ), 0, 0)] =
      .error .packRange := by
    unfold pack_waypoints
    rw [hwp]
  simp only [create_route_packet]
  rw [if_neg (by simp), if_pos (by omega), hwps]

/-- Claim C5 (amended): `create_route_packet` raises
`InvalidWaypointCount` whenever N is outside [2, 255] (in particular for
N = 0, 1, 256); for N in [2, 255], provided the timestamp fits 32 bits and
every waypoint's scaled fields fit their fixed-width formats, it returns a
buffer of exactly 38 + 15*N bytes whose declared length field (bytes 2-3)
also reads 38 + 15*N. -/
theorem C5_route_count_and_length (seq_num vessel_id : ℤ)
    (waypoints : List (ℚ × ℚ × ℚ)) (timestamp : ℤ) :
    (waypoints.length < 2 ∨ 255 < waypoints.length →
      create_route_packet seq_num vessel_id waypoints timestamp =
        .error .invalidWaypointCount) ∧
    (2 ≤ waypoints.length → waypoints.length ≤ 255 →
      0 ≤ timestamp → timestamp < 4294967296 →
      (∀ w ∈ waypoints, waypoint_in_range w) →
      ∃ buf, create_route_packet seq_num vessel_id waypoints timestamp =
          .ok buf ∧
        buf.length = 38 + 15 * waypoints.length ∧
        u16at buf 2 = 38 + 15 * waypoints.length) := by
  constructor
  · intro h
    simp only [create_route_packet]
    rw [if_pos h]
  · intro h2 h255 hts1 hts2 hwps
    obtain ⟨body, hbody, hbodylen⟩ := pack_waypoints_ok_length waypoints hwps
    refine ⟨route_header seq_num (vessel_code_get vessel_id)
        (38 + 15 * waypoints.length) timestamp.toNat waypoints.length ++
        body ++ u16bytesN 0, ?_, ?_, ?_⟩
    · simp only [create_route_packet]
      rw [if_neg (by omega), if_pos ⟨hts1, hts2⟩, hbody]
    · have hh : (route_header seq_num (vessel_code_get vessel_id)
          (38 + 15 * waypoints.length) timestamp.toNat
          waypoints.length).length = 36 := rfl
      rw [List.length_append, List.length_append, hh, hbodylen]
      simp only [u16bytesN, List.length_cons, List.length_nil]
      omega
    · have he : u16at (route_header seq_num (vessel_code_get vessel_id)
          (38 + 15 * waypoints.length) timestamp.toNat waypoints.length ++
          body ++ u16bytesN 0) 2 =
          (38 + 15 * waypoints.length) / 256 % 256 * 256 +
            (38 + 15 * waypoints.length) % 256 := rfl
      rw [he]
      omega

/-- Claim C5 witness: the amended statement at a concrete all-zero
two-waypoint route. -/
theorem C5_witness :
    ∃ buf, create_route_packet 1 1 c5witWps 0 = .ok buf ∧
      buf.length = 38 + 15 * c5witWps.length ∧
      u16at buf 2 = 38 + 15 * c5witWps.length :=
  (C5_route_count_and_length 1 1 c5witWps 0).2 (by decide) (by decide)
    (by decide) (by decide)
    (by
      intro w hw
      have hw0 : w = ((0 : ℚ), (0 : ℚ), (0 : ℚ)) := by
        simp only [c5witWps, List.mem_cons, List.not_mem_nil, or_false] at hw
        rcases hw with h | h <;> exact h
      rw [hw0]
      exact waypoint_in_range_zero)

/-- Whenever `create_command_packet` returns a buffer, its receiver field
(bytes 12-13) and platform field (bytes 26-27) both hold the table value
`vessel_code_get vessel_id`. -/
lemma command_packet_fields (seq_num vessel_id : ℤ) (speed direction : ℚ)
    (timestamp : ℤ) (buf : List Nat)
    (h : create_command_packet seq_num vessel_id speed direction timestamp =
      .ok buf) :
    u16at buf 12 = vessel_code_get vessel_id ∧
    u16at buf 26 = vessel_code_get vessel_id := by
  simp only [create_command_packet] at h
  split at h
  · injection h with hbuf
    subst hbuf
    have hc : vessel_code_get vessel_id < 65536 := vessel_code_get_lt vessel_id
    constructor
    · show vessel_code_get vessel_id / 256 % 256 * 256 +
        vessel_code_get vessel_id % 256 = vessel_code_get vessel_id
      omega
    · show vessel_code_get vessel_id / 256 % 256 * 256 +
        vessel_code_get vessel_id % 256 = vessel_code_get vessel_id
      omega
  · exact Except.noConfusion h

/-- Claim C9: for every input on which `create_command_packet` produces a
buffer, the receiver field (offset 12) and platform field (offset 26) both
equal the vessel-table lookup; for vessel indices 1..5 that lookup is the
table-mapped code `0x5000 + index`, for any other index it is the fallback
`0x5001` (the first table entry) — the lookup itself is total and never
fails. -/
theorem C9_receiver_platform_fields (seq_num vessel_id : ℤ)
    (speed direction : ℚ) (timestamp : ℤ) (buf : List Nat)
    (h : create_command_packet seq_num vessel_id speed direction timestamp =
      .ok buf) :
    (u16at buf 12 = vessel_code_get vessel_id ∧
     u16at buf 26 = vessel_code_get vessel_id) ∧
    (1 ≤ vessel_id → vessel_id ≤ 5 →
      (vessel_code_get vessel_id : ℤ) = 0x5000 + vessel_id) ∧
    (vessel_id < 1 ∨ 5 < vessel_id → vessel_code_get vessel_id = 0x5001) := by
  refine ⟨command_packet_fields seq_num vessel_id speed direction timestamp
    buf h, ?_, ?_⟩
  · intro h1 h5
    have hv : vessel_id = 1 ∨ vessel_id = 2 ∨ vessel_id = 3 ∨
        vessel_id = 4 ∨ vessel_id = 5 := by omega
    rcases hv with hv | hv | hv | hv | hv <;> subst hv <;> decide
  · intro hout
    unfold vessel_code_get
    repeat' split
    all_goals first | rfl | omega

/-- `create_command_packet(5, 3, 0.0, 0.0)` with timestamp 0 evaluates to
the concrete 28-byte packet `c9buf`. -/
lemma create_command_packet_eval :
    create_command_packet 5 3 0 0 0 = .ok c9buf := by
  simp only [create_command_packet, pyInt_zero_mul]
  split
  · rfl
  · next hcond => exact absurd (by decide) hcond

/-- Claim C9 witness: the field equalities at seq 5, vessel 3, zero speed
and heading, timestamp 0. -/
theorem C9_witness :
    u16at c9buf 12 = vessel_code_get 3 ∧ u16at c9buf 26 = vessel_code_get 3 :=
  (C9_receiver_platform_fields 5 3 0 0 0 c9buf create_command_packet_eval).1
